import Mathlib

/-!
Verification of the tech-news-scraper repository.

This file shallowly embeds the parts of the Python sources that the
specification's claims are about:

* `scrape_article` field extraction (identical logic in
  scrape-articles.py, us-scraper.py, asia-scraper.py, euro-scraper.py);
* `get_article_links` link discovery (scrape-articles.py variant, and the
  us/asia/euro variant that additionally joins scheme-less URLs and drops
  trailing-`#` links);
* the per-source and per-article retry loops of the `run` methods,
  including their backoff sleeps and per-variant success checks;
* `save_to_json` persistence over a small filesystem model
  (scrape-articles.py variant without directory creation, and the
  asia/euro variant with `os.makedirs`);
* `generate_report` (scrape-articles.py variant);
* `cluster_articles_by_theme` from article-clustering-tool.py.

HTML parsing itself (BeautifulSoup) is abstracted by taking the results of
the selector queries as inputs: an `ArticlePage` records, for each selector
tier the Python code runs, whether the query matched and the raw text of
the matched node.  Everything downstream of the selector queries is
translated statement by statement from the Python source.
-/

namespace TechNews

/-- Python `str.strip()`: remove whitespace from both ends. -/
def strip (s : String) : String :=
  ⟨((s.data.dropWhile Char.isWhitespace).reverse.dropWhile Char.isWhitespace).reverse⟩

/-- Python `' '.join(xs)`. -/
def joinSpace : List String → String
  | [] => ""
  | [x] => x
  | x :: xs => x ++ " " ++ joinSpace xs

/-- Python `s.startswith(p)`. -/
def pyStartsWith (s p : String) : Bool := p.data.isPrefixOf s.data

/-- Python `s.endswith(p)`. -/
def pyEndsWith (s p : String) : Bool := p.data.isSuffixOf s.data

/-- Python `s.lstrip('/')`. -/
def lstripSlash (s : String) : String := ⟨s.data.dropWhile (· = '/')⟩

/-- A source descriptor, one entry of the `self.sources` list. -/
structure Source where
  name : String
  url : String
  article_selector : String
  title_selector : String
  content_selector : String
  date_selector : String
  category : String
  region : String
deriving DecidableEq

/-- The content container matched by a content selector: the raw texts of
its `<p>` descendants (`content.find_all('p')`) and the raw text of the
container itself (`content.get_text()`). -/
structure ContentNode where
  paragraphs : List String
  rawText : String
deriving DecidableEq

/-- Results of the selector queries `scrape_article` performs on the parsed
article page.  Each `Option` is `none` exactly when `soup.select_one(...)`
returns `None`; for elements, the carried string is the node's
`get_text()` (not yet stripped).  `metaDescContent` is the `content`
attribute of `meta[name="description"]`, `none` when the element or the
attribute is absent. -/
structure ArticlePage where
  titleBySelector : Option String
  titleFallback : Option String
  contentBySelector : Option ContentNode
  contentFallback : Option ContentNode
  dateBySelector : Option String
  dateFallback : Option String
  authorSel : Option String
  metaDescContent : Option String
deriving DecidableEq

/-- The `article_data` dict built by `scrape_article` (common fields of all
four variants). -/
structure ArticleRecord where
  source : String
  category : String
  url : String
  title : String
  author : String
  description : String
  content : String
  date : String
  content_length : Nat
  scraped_at : String
deriving DecidableEq

/-- Body of `scrape_article` after the HTTP fetch and parse, translated
line by line from scrape-articles.py lines 340-386 (the same statements
appear in us-scraper.py, asia-scraper.py and euro-scraper.py).  `nowDate`
and `nowIso` stand for `datetime.now().strftime("%Y-%m-%d")` and
`datetime.now().isoformat()` read from the environment clock. -/
def scrape_article (src : Source) (url : String) (page : ArticlePage)
    (nowDate nowIso : String) : ArticleRecord :=
  let title := page.titleBySelector.orElse (fun _ => page.titleFallback)
  let title_text := match title with
    | some t => strip t
    | none => "Title not found"
  let content := page.contentBySelector.orElse (fun _ => page.contentFallback)
  let content_text := match content with
    | some c =>
        let fromParas := joinSpace (c.paragraphs.map strip)
        if fromParas = "" then strip c.rawText else fromParas
    | none => "Content not found"
  let date := page.dateBySelector.orElse (fun _ => page.dateFallback)
  let date_text := match date with
    | some d => strip d
    | none => nowDate
  let author_text := match page.authorSel with
    | some a => strip a
    | none => "Author not found"
  let description := match page.metaDescContent with
    | some c => if c = "" then "" else c
    | none => ""
  { source := src.name
    category := src.category
    url := url
    title := title_text
    author := author_text
    description := description
    content := content_text
    date := date_text
    content_length := content_text.length
    scraped_at := nowIso }

/-- A concrete source descriptor (the TechCrunch entry of `self.sources`). -/
def srcEx : Source :=
  ⟨"TechCrunch", "https://techcrunch.com/", "article", "h1",
   ".article-content", "time", "technology", "north_america"⟩

/-- An article page on which no selector of any tier matches. -/
def pageEmpty : ArticlePage := ⟨none, none, none, none, none, none, none, none⟩

/-!  Link discovery (`get_article_links`).  An article container found by
`soup.select(source['article_selector'])` is abstracted by the three link
lookups the Python code performs on it. -/

/-- One article container from the homepage: `anchorHref` is the `href` of
`article.find('a')` (`none` when there is no anchor or no `href`
attribute), `headlineHref` the `href` of
`article.select_one('h2 a, h3 a, .headline a, .title a')`, and `selfHref`
the container's own `href` when the container itself is an `<a>` tag. -/
structure Container where
  anchorHref : Option String
  headlineHref : Option String
  selfHref : Option String
deriving DecidableEq

/-- Python truthiness of an optional string: `None` and `""` are falsy. -/
def truthy : Option String → Option String
  | some s => if s = "" then none else some s
  | none => none

/-- The ordered fallback chain of `get_article_links`: first anchor, then
headline anchor, then the container itself (lines 284-299 of
scrape-articles.py; identical in the other variants). -/
def resolveLink (c : Container) : Option String :=
  (truthy c.anchorHref).orElse fun _ =>
    (truthy c.headlineHref).orElse fun _ => truthy c.selfHref

/-- `re.match(r'(https?://[^/]+)', url)` followed by `.group(1)`: the
scheme plus host of `url`, `none` when the regex does not match (in the
Python code `.group(1)` then raises `AttributeError`). -/
def domainOf (url : String) : Option String :=
  if pyStartsWith url "http://" then
    if ((url.drop 7).data.takeWhile (· ≠ '/')) = [] then none
    else some ("http://" ++ ⟨(url.drop 7).data.takeWhile (· ≠ '/')⟩)
  else if pyStartsWith url "https://" then
    if ((url.drop 8).data.takeWhile (· ≠ '/')) = [] then none
    else some ("https://" ++ ⟨(url.drop 8).data.takeWhile (· ≠ '/')⟩)
  else none

namespace ScrapeArticles

/-- URL normalization of scrape-articles.py lines 302-305: only URLs
beginning with `/` are prefixed with the homepage's scheme+host; every
other URL passes through unchanged.  `none` models the `AttributeError`
raised when the domain regex fails. -/
def normalizeLink (srcUrl link : String) : Option String :=
  if pyStartsWith link "/" then (domainOf srcUrl).map (· ++ link)
  else some link

/-- One iteration of the collection loop of `get_article_links`
(scrape-articles.py lines 283-308): resolve a link from the container,
normalize it, and append it unless it is a duplicate; `none` is an
exception escaping the loop. -/
def collectLink (srcUrl : String) (links : List String) (c : Container) :
    Option (List String) :=
  match resolveLink c with
  | none => some links
  | some link =>
    match normalizeLink srcUrl link with
    | none => none
    | some l => some (if l ∈ links then links else links ++ [l])

/-- `get_article_links` of scrape-articles.py: run the collection loop over
`articles[:15]` (an exception anywhere yields `[]`). -/
def get_article_links (srcUrl : String) (containers : List Container) : List String :=
  ((containers.take 15).foldlM (collectLink srcUrl) []).getD []

end ScrapeArticles

namespace Regional

/-- URL normalization shared by us-scraper.py (lines 147-153),
asia-scraper.py (lines 207-213) and euro-scraper.py (lines 128-134):
URLs beginning with `/` are prefixed with the scheme+host, URLs not
beginning with `http` are joined as `domain + '/' + link.lstrip('/')`,
and URLs beginning with `http` pass through unchanged. -/
def normalizeLink (srcUrl link : String) : Option String :=
  if pyStartsWith link "/" then (domainOf srcUrl).map (· ++ link)
  else if !(pyStartsWith link "http") then
    (domainOf srcUrl).map (fun d => d ++ "/" ++ lstripSlash link)
  else some link

/-- One iteration of the collection loop of the us/asia/euro
`get_article_links`: besides deduplication it also skips links ending in
`#`. -/
def collectLink (srcUrl : String) (links : List String) (c : Container) :
    Option (List String) :=
  match resolveLink c with
  | none => some links
  | some link =>
    match normalizeLink srcUrl link with
    | none => none
    | some l =>
      some (if l ∈ links ∨ pyEndsWith l "#" = true then links else links ++ [l])

/-- `get_article_links` of us-scraper.py / asia-scraper.py /
euro-scraper.py. -/
def get_article_links (srcUrl : String) (containers : List Container) : List String :=
  ((containers.take 15).foldlM (collectLink srcUrl) []).getD []

end Regional

/-!  The retry loops of the `run` methods.  One iteration's outcome is an
`Option α`: `none` when the wrapped call raised or returned `None`,
`some x` when it returned `x`.  A list of outcomes, one per configured
attempt, drives the loop; the result is the value of the first successful
attempt (if any) together with the list of backoff sleep durations, in
seconds, in the order `time.sleep` is invoked. -/

/-- An attempt outcome that the loop treats as a failure: an exception /
`None`, or a returned value rejected by the variant's success check. -/
def isFailure (succ : α → Bool) : Option α → Bool
  | some r => !succ r
  | none => true

/-- The retry loop shared by all variants: on a failure at 0-based attempt
index `k` it sleeps `base + inc * k` seconds unless this was the final
attempt (`attempt < self.retry_attempts - 1` in the Python code, i.e. the
remaining list is nonempty), then moves to the next attempt; on success it
breaks immediately. -/
def retryGo (base inc : Nat) (succ : α → Bool) :
    List (Option α) → Nat → Option α × List Nat
  | [], _ => (none, [])
  | o :: rest, k =>
    if isFailure succ o then
      let r := retryGo base inc succ rest (k + 1)
      (r.1, (if rest.isEmpty then ([] : List Nat) else [base + inc * k]) ++ r.2)
    else (o, [])

/-- Number of leading failed attempts. -/
def failCount (succ : α → Bool) (outs : List (Option α)) : Nat :=
  (outs.takeWhile (isFailure succ)).length

/-- Source-level retry around `get_article_links` (all variants): success
is a non-empty link list (`if article_links:`), backoff
`time.sleep(3 + attempt * 2)`. -/
def link_retry (outs : List (List String)) : Option (List String) × List Nat :=
  retryGo 3 2 (fun l : List String => !l.isEmpty) (outs.map some) 0

/-- Per-article success check of scrape-articles.py line 509:
`if article_data:` — any returned record counts. -/
def genericSuccess (_ : ArticleRecord) : Bool := true

/-- Per-article success check of us-scraper.py line 442:
`article_data.get('title') != "" and article_data.get('content') != "Content not found"`. -/
def usSuccess (r : ArticleRecord) : Bool :=
  r.title != "" && r.content != "Content not found"

/-- Per-article success check of asia-scraper.py line 455 and
euro-scraper.py line 358: both the title and the content must be
non-sentinel. -/
def asiaSuccess (r : ArticleRecord) : Bool :=
  r.title != "Title not found" && r.content != "Content not found"

/-- Article-level retry of scrape-articles.py lines 506-519: backoff
`time.sleep(2 + attempt)`. -/
def article_retry_generic (outs : List (Option ArticleRecord)) :
    Option ArticleRecord × List Nat :=
  retryGo 2 1 genericSuccess outs 0

/-- Article-level retry of us-scraper.py lines 439-462. -/
def article_retry_us (outs : List (Option ArticleRecord)) :
    Option ArticleRecord × List Nat :=
  retryGo 2 1 usSuccess outs 0

/-- Article-level retry of asia-scraper.py lines 452-465 (euro-scraper.py
lines 355-368 is identical). -/
def article_retry_asia (outs : List (Option ArticleRecord)) :
    Option ArticleRecord × List Nat :=
  retryGo 2 1 asiaSuccess outs 0

/-!  Persistence (`save_to_json`) over a small filesystem model: a set of
existing directories and a map from paths to the serialized article list
(the JSON document is represented by the value it encodes). -/

/-- Filesystem state. -/
structure FS where
  dirs : List String
  files : List (String × List ArticleRecord)
deriving DecidableEq

/-- `os.path.dirname`: everything before the last `/`, `""` when there is
no `/`. -/
def dirname (p : String) : String :=
  ⟨((p.data.reverse.dropWhile (· ≠ '/')).drop 1).reverse⟩

/-- Overwrite (or create) the file at `p`. -/
def setFile (files : List (String × List ArticleRecord)) (p : String)
    (v : List ArticleRecord) : List (String × List ArticleRecord) :=
  (p, v) :: files.filter (fun e => e.1 ≠ p)

/-- Content of the file at `p`, if it exists. -/
def getFile (files : List (String × List ArticleRecord)) (p : String) :
    Option (List ArticleRecord) :=
  (files.find? (fun e => e.1 == p)).map (·.2)

namespace ScrapeArticles

/-- `save_to_json` of scrape-articles.py lines 395-402: it opens
`self.output_file` directly, with no directory handling; when the parent
directory is missing the `open` raises and the exception is caught and
logged, leaving the filesystem unchanged. -/
def save_to_json (fs : FS) (outputFile : String) (arts : List TechNews.ArticleRecord) : FS :=
  let d := dirname outputFile
  if d = "" ∨ d ∈ fs.dirs then { fs with files := setFile fs.files outputFile arts }
  else fs

end ScrapeArticles

namespace AsiaScraper

/-- `save_to_json` of asia-scraper.py lines 323-335 (euro-scraper.py lines
234-246 is identical): `os.makedirs` creates the missing output directory
before the write, so the write always succeeds. -/
def save_to_json (fs : FS) (outputFile : String) (arts : List TechNews.ArticleRecord) : FS :=
  let d := dirname outputFile
  let fs' := if d ≠ "" ∧ d ∉ fs.dirs then { fs with dirs := d :: fs.dirs } else fs
  { fs' with files := setFile fs'.files outputFile arts }

end AsiaScraper

/-- The per-source persistence pattern of the `run` methods of
scrape-articles.py, asia-scraper.py and euro-scraper.py: after each
source's article loop, the full accumulator gathered so far is written to
the output file (`self.save_to_json(all_articles)`).  `perSource` is the
list of records each source's article loop contributes. -/
def runGo (save : FS → String → List ArticleRecord → FS) (out : String) :
    List (List ArticleRecord) → FS → List ArticleRecord → FS × List ArticleRecord
  | [], fs, acc => (fs, acc)
  | s :: rest, fs, acc => runGo save out rest (save fs out (acc ++ s)) (acc ++ s)

/-- The whole persistence behaviour of `run`: snapshot after every source,
then a final `save_to_json(all_articles)` after the loop. -/
def runPersist (save : FS → String → List ArticleRecord → FS) (out : String)
    (fs : FS) (perSource : List (List ArticleRecord)) : FS × List ArticleRecord :=
  let r := runGo save out perSource fs []
  (save r.1 out r.2, r.2)

/-!  `generate_report` of scrape-articles.py lines 404-461. -/

/-- The fixed-key `by_region` dict. -/
structure RegionCounts where
  north_america : Nat
  europe : Nat
  asia : Nat
deriving DecidableEq

/-- The fixed-key `by_category` dict. -/
structure CategoryCounts where
  technology : Nat
  business : Nat
  investing : Nat
deriving DecidableEq

/-- The report document. -/
structure Report where
  total_articles : Nat
  by_source : List (String × Nat)
  by_region : RegionCounts
  by_category : CategoryCounts
  average_content_length : ℚ
deriving DecidableEq

/-- `report["by_source"][source] = report["by_source"].get(source, 0) + 1`
on an insertion-ordered dict. -/
def bumpSource (l : List (String × Nat)) (k : String) : List (String × Nat) :=
  if l.any (fun e => e.1 == k) then
    l.map (fun e => if e.1 == k then (e.1, e.2 + 1) else e)
  else l ++ [(k, 1)]

/-- `get_source_region` of scrape-articles.py lines 463-468. -/
def get_source_region (sources : List Source) (name : String) : String :=
  match sources.find? (fun s => s.name == name) with
  | some s => s.region
  | none => "unknown"

/-- `if region in report["by_region"]: report["by_region"][region] += 1`. -/
def bumpRegion (rc : RegionCounts) (region : String) : RegionCounts :=
  if region = "north_america" then { rc with north_america := rc.north_america + 1 }
  else if region = "europe" then { rc with europe := rc.europe + 1 }
  else if region = "asia" then { rc with asia := rc.asia + 1 }
  else rc

/-- `if category in report["by_category"]: report["by_category"][category] += 1`. -/
def bumpCategory (cc : CategoryCounts) (category : String) : CategoryCounts :=
  if category = "technology" then { cc with technology := cc.technology + 1 }
  else if category = "business" then { cc with business := cc.business + 1 }
  else if category = "investing" then { cc with investing := cc.investing + 1 }
  else cc

/-- `generate_report` of scrape-articles.py: count articles by source,
region and category, accumulate the total content length, and set the
average only when the collection is nonempty (`if articles:`), leaving the
initial `0` otherwise. -/
def generate_report (sources : List Source) (arts : List ArticleRecord) : Report :=
  let st := arts.foldl
    (fun (st : List (String × Nat) × RegionCounts × CategoryCounts × Nat) a =>
      (bumpSource st.1 a.source,
       bumpRegion st.2.1 (get_source_region sources a.source),
       bumpCategory st.2.2.1 a.category,
       st.2.2.2 + a.content_length))
    ([], ⟨0, 0, 0⟩, ⟨0, 0, 0⟩, 0)
  { total_articles := arts.length
    by_source := st.1
    by_region := st.2.1
    by_category := st.2.2.1
    average_content_length :=
      if arts.isEmpty then 0 else (st.2.2.2 : ℚ) / (arts.length : ℚ) }

/-!  `cluster_articles_by_theme` of article-clustering-tool.py lines
141-165.  The parsed LLM response is a list of themes, each with optional
`name` and `description` keys and a list of integer article ids; the
loaded article metadata list is abstracted by the list of its
`full_article` values. -/

/-- One theme of the parsed LLM response. -/
structure ThemeIn where
  name : Option String
  description : Option String
  article_ids : List Int
deriving DecidableEq

/-- One theme of the returned `clustered_data`. -/
structure ThemeOut (α : Type) where
  name : String
  description : String
  articles : List α
deriving DecidableEq

/-- Lines 157-159: `for article_id in theme.get('article_ids', []): if
0 <= article_id < len(article_metadata):
theme_data["articles"].append(article_metadata[article_id]["full_article"])`. -/
def themeArticles (md : List α) (ids : List Int) : List α :=
  ids.filterMap fun i =>
    if 0 ≤ i ∧ i < (md.length : Int) then md.get? i.toNat else none

/-- Lines 150-163 of `cluster_articles_by_theme`: build one output theme
per response theme, then keep only themes whose article list is nonempty
(`if theme_data["articles"]:`). -/
def cluster_articles_by_theme (md : List α) (themes : List ThemeIn) :
    List (ThemeOut α) :=
  (themes.map fun t =>
      ThemeOut.mk (t.name.getD "Unnamed Theme") (t.description.getD "")
        (themeArticles md t.article_ids)).filter
    fun td => !td.articles.isEmpty

/-!  Helper lemmas. -/

/-- Appending on the right preserves a string prefix. -/
theorem pyStartsWith_append (d x p : String) (h : pyStartsWith d p = true) :
    pyStartsWith (d ++ x) p = true := by
  unfold pyStartsWith at h ⊢
  rw [ List.isPrefixOf_iff_prefix] at h ⊢
  rw [String.data_append]
  exact h.trans (List.prefix_append _ _)

/-- Whatever `domainOf` extracts begins with `http`. -/
theorem domainOf_http (url d : String) (h : domainOf url = some d) :
    pyStartsWith d "http" = true := by
  unfold domainOf at h
  split at h
  · split at h
    · exact absurd h (by simp)
    · cases h
      exact pyStartsWith_append _ _ _ (by decide)
  · split at h
    · split at h
      · exact absurd h (by simp)
      · cases h
        exact pyStartsWith_append _ _ _ (by decide)
    · exact absurd h (by simp)

/-- Every URL the us/asia/euro normalization emits begins with `http`. -/
theorem regional_normalizeLink_http (srcUrl link l : String)
    (h : Regional.normalizeLink srcUrl link = some l) :
    pyStartsWith l "http" = true := by
  unfold Regional.normalizeLink at h
  split at h
  · obtain ⟨d, hd, hl⟩ := Option.map_eq_some'.mp h
    subst hl
    exact pyStartsWith_append _ _ _ (domainOf_http _ _ hd)
  · split at h
    · obtain ⟨d, hd, hl⟩ := Option.map_eq_some'.mp h
      subst hl
      exact pyStartsWith_append _ _ _ (pyStartsWith_append _ _ _ (domainOf_http _ _ hd))
    · rename_i hc
      cases h
      simpa using hc

/-- An `Option`-valued left fold preserves any invariant its step
preserves. -/
theorem foldlM_option_inv {α β : Type} (f : β → α → Option β) (P : β → Prop)
    (hf : ∀ b a b', f b a = some b' → P b → P b') :
    ∀ (l : List α) (b b' : β), List.foldlM f b l = some b' → P b → P b' := by
  intro l
  induction l with
  | nil =>
    intro b b' h hb
    simp only [List.foldlM_nil] at h
    cases h
    exact hb
  | cons a t ih =>
    intro b b' h hb
    rw [List.foldlM_cons] at h
    cases hfa : f b a with
    | none => rw [hfa] at h; simp at h
    | some b1 =>
      rw [hfa] at h
      exact ih b1 b' h (hf b a b1 hfa hb)

/-- An `Option`-valued left fold whose step grows a measure by at most one
grows it by at most the list length. -/
theorem foldlM_option_growth {α β : Type} (f : β → α → Option β) (g : β → Nat)
    (hf : ∀ b a b', f b a = some b' → g b' ≤ g b + 1) :
    ∀ (l : List α) (b b' : β), List.foldlM f b l = some b' →
      g b' ≤ g b + l.length := by
  intro l
  induction l with
  | nil =>
    intro b b' h
    simp only [List.foldlM_nil] at h
    cases h
    simp
  | cons a t ih =>
    intro b b' h
    rw [List.foldlM_cons] at h
    cases hfa : f b a with
    | none => rw [hfa] at h; simp at h
    | some b1 =>
      rw [hfa] at h
      have h1 := ih b1 b' h
      have h2 := hf b a b1 hfa
      simp only [List.length_cons]
      omega

/-- One step of the scrape-articles.py collection loop preserves
duplicate-freedom. -/
theorem scrapeArticles_collectLink_nodup (u : String) (b : List String)
    (a : Container) (b' : List String)
    (h : ScrapeArticles.collectLink u b a = some b') (hb : b.Nodup) : b'.Nodup := by
  unfold ScrapeArticles.collectLink at h
  split at h
  · cases h; exact hb
  · split at h
    · exact absurd h (by simp)
    · rename_i l _
      cases h
      by_cases hm : l ∈ b
      · rw [if_pos hm]; exact hb
      · rw [if_neg hm]
        rw [List.nodup_append]
        refine ⟨hb, List.nodup_singleton l, ?_⟩
        intro x hx hx1
        simp only [List.mem_singleton] at hx1
        subst hx1
        exact hm hx

/-- One step of the scrape-articles.py collection loop adds at most one
link. -/
theorem scrapeArticles_collectLink_growth (u : String) (b : List String)
    (a : Container) (b' : List String)
    (h : ScrapeArticles.collectLink u b a = some b') : b'.length ≤ b.length + 1 := by
  unfold ScrapeArticles.collectLink at h
  split at h
  · cases h; omega
  · split at h
    · exact absurd h (by simp)
    · rename_i l _
      cases h
      by_cases hm : l ∈ b
      · rw [if_pos hm]; omega
      · rw [if_neg hm]; simp

/-- One step of the us/asia/euro collection loop preserves both
duplicate-freedom and absoluteness of all collected URLs. -/
theorem regional_collectLink_inv (u : String) (b : List String)
    (a : Container) (b' : List String)
    (h : Regional.collectLink u b a = some b')
    (hb : b.Nodup ∧ ∀ x ∈ b, pyStartsWith x "http" = true) :
    b'.Nodup ∧ ∀ x ∈ b', pyStartsWith x "http" = true := by
  unfold Regional.collectLink at h
  split at h
  · cases h; exact hb
  · split at h
    · exact absurd h (by simp)
    · rename_i l hn
      cases h
      by_cases hm : l ∈ b ∨ pyEndsWith l "#" = true
      · rw [if_pos hm]; exact hb
      · rw [if_neg hm]
        push_neg at hm
        constructor
        · rw [List.nodup_append]
          refine ⟨hb.1, List.nodup_singleton l, ?_⟩
          intro x hx hx1
          simp only [List.mem_singleton] at hx1
          subst hx1
          exact hm.1 hx
        · intro x hx
          rcases List.mem_append.mp hx with hx | hx
          · exact hb.2 x hx
          · simp only [List.mem_singleton] at hx
            subst hx
            exact regional_normalizeLink_http u _ x hn

/-- One step of the us/asia/euro collection loop adds at most one link. -/
theorem regional_collectLink_growth (u : String) (b : List String)
    (a : Container) (b' : List String)
    (h : Regional.collectLink u b a = some b') : b'.length ≤ b.length + 1 := by
  unfold Regional.collectLink at h
  split at h
  · cases h; omega
  · split at h
    · exact absurd h (by simp)
    · rename_i l _
      cases h
      by_cases hm : l ∈ b ∨ pyEndsWith l "#" = true
      · rw [if_pos hm]; omega
      · rw [if_neg hm]; simp

/-- The first component of the retry loop is the first successful
attempt's value: it passed the success check, and it is one of the
attempts' outcomes. -/
theorem retryGo_fst {α : Type} (b i : Nat) (succ : α → Bool) :
    ∀ (outs : List (Option α)) (k : Nat) (r : α),
      (retryGo b i succ outs k).1 = some r → succ r = true ∧ some r ∈ outs := by
  intro outs
  induction outs with
  | nil => intro k r h; simp [retryGo] at h
  | cons o rest ih =>
    intro k r h
    simp only [retryGo] at h
    by_cases hf : isFailure succ o = true
    · rw [if_pos hf] at h
      dsimp only at h
      obtain ⟨h1, h2⟩ := ih (k + 1) r h
      exact ⟨h1, List.mem_cons_of_mem _ h2⟩
    · rw [if_neg hf] at h
      dsimp only at h
      cases o with
      | none => simp [isFailure] at hf
      | some x =>
        cases h
        exact ⟨by simpa [isFailure] using hf, List.mem_cons_self _ _⟩

/-- The backoff sleeps of the retry loop: one sleep of `base + inc * k`
seconds for every failed attempt at index `k`, except after the final
attempt. -/
theorem retryGo_sleeps {α : Type} (b i : Nat) (succ : α → Bool) :
    ∀ (outs : List (Option α)) (k : Nat),
      (retryGo b i succ outs k).2 =
        (List.range (min (failCount succ outs) (outs.length - 1))).map
          (fun j => b + i * (k + j)) := by
  intro outs
  induction outs with
  | nil => intro k; simp [retryGo, failCount]
  | cons o rest ih =>
    intro k
    simp only [retryGo]
    by_cases hf : isFailure succ o = true
    · rw [if_pos hf]
      dsimp only
      rw [ih (k + 1)]
      have hfc : failCount succ (o :: rest) = failCount succ rest + 1 := by
        simp [failCount, List.takeWhile_cons, hf]
      rw [hfc]
      by_cases hre : rest = []
      · subst hre
        simp [failCount]
      · have hL : 1 ≤ rest.length := List.length_pos.mpr hre
        have hie : rest.isEmpty = false := by
          simp [List.isEmpty_iff, hre]
        rw [hie]
        have hmin : min (failCount succ rest + 1) ((o :: rest).length - 1)
            = min (failCount succ rest) (rest.length - 1) + 1 := by
          simp only [List.length_cons]
          omega
        rw [hmin, List.range_succ_eq_map, List.map_cons, List.map_map]
        simp only [Bool.false_eq_true, if_false, List.cons_append, List.nil_append]
        refine List.cons_eq_cons.mpr ⟨by rw [Nat.add_zero], ?_⟩
        apply List.map_congr_left
        intro j _
        simp only [Function.comp_apply, Nat.succ_eq_add_one]
        ring
    · rw [if_neg hf]
      dsimp only
      have hfc : failCount succ (o :: rest) = 0 := by
        simp only [Bool.not_eq_true] at hf
        simp [failCount, List.takeWhile_cons, hf]
      rw [hfc]
      simp

/-- Looking up a path just written returns the written content. -/
theorem getFile_setFile (files : List (String × List ArticleRecord))
    (p : String) (v : List ArticleRecord) :
    getFile (setFile files p v) p = some v := by
  simp [getFile, setFile, List.find?]

/-- The asia/euro `save_to_json` always writes the snapshot. -/
theorem asia_save_getFile (fs : FS) (out : String) (arts : List ArticleRecord) :
    getFile (AsiaScraper.save_to_json fs out arts).files out = some arts := by
  unfold AsiaScraper.save_to_json
  dsimp only
  split
  · exact getFile_setFile _ _ _
  · exact getFile_setFile _ _ _

/-- The asia/euro `save_to_json` ensures the parent directory exists. -/
theorem asia_save_dir (fs : FS) (out : String) (arts : List ArticleRecord)
    (h : dirname out ≠ "") :
    dirname out ∈ (AsiaScraper.save_to_json fs out arts).dirs := by
  unfold AsiaScraper.save_to_json
  dsimp only
  split
  · exact List.mem_cons_self _ _
  · rename_i hc
    rcases not_and_or.mp hc with h1 | h2
    · exact absurd (not_not.mp h1) h
    · exact not_not.mp h2

/-- The scrape-articles.py `save_to_json` writes the snapshot whenever the
parent directory already exists (or the path has none). -/
theorem generic_save_getFile (fs : FS) (out : String) (arts : List ArticleRecord)
    (h : dirname out = "" ∨ dirname out ∈ fs.dirs) :
    getFile (ScrapeArticles.save_to_json fs out arts).files out = some arts := by
  unfold ScrapeArticles.save_to_json
  dsimp only
  rw [if_pos h]
  exact getFile_setFile _ _ _

/-- The accumulator after the per-source loop is the concatenation of all
sources' contributions. -/
theorem runGo_snd (save : FS → String → List ArticleRecord → FS) (out : String) :
    ∀ (ss : List (List ArticleRecord)) (fs : FS) (acc : List ArticleRecord),
      (runGo save out ss fs acc).2 = acc ++ ss.flatten := by
  intro ss
  induction ss with
  | nil => intro fs acc; simp [runGo]
  | cons s rest ih =>
    intro fs acc
    simp only [runGo, List.flatten_cons]
    rw [ih]
    simp [List.append_assoc]

/-- With the asia/euro `save_to_json`, after any nonempty run of sources
the output file holds exactly the records accumulated so far. -/
theorem asia_runGo_file (out : String) :
    ∀ (ss : List (List ArticleRecord)) (fs : FS) (acc : List ArticleRecord),
      ss ≠ [] →
      getFile ((runGo AsiaScraper.save_to_json out ss fs acc).1).files out
        = some (acc ++ ss.flatten) := by
  intro ss
  induction ss with
  | nil => intro fs acc h; exact absurd rfl h
  | cons s rest ih =>
    intro fs acc _
    by_cases hr : rest = []
    · subst hr
      simp only [runGo, List.flatten_cons, List.flatten_nil, List.append_nil]
      exact asia_save_getFile _ _ _
    · simp only [runGo, List.flatten_cons]
      rw [ih _ _ hr]
      simp [List.append_assoc]

/-!  Concrete fixtures used by witnesses and counterexamples. -/

/-- A well-formed extracted record (non-sentinel title and content). -/
def rOk : ArticleRecord :=
  ⟨"TechCrunch", "technology", "u", "T", "A", "", "body", "2025-01-01", 4, "t"⟩

/-- A record bearing both sentinels, as `scrape_article` returns when no
title and no content selector matches. -/
def rSent : ArticleRecord :=
  ⟨"TechCrunch", "technology", "u", "Title not found", "Author not found", "",
   "Content not found", "2025-01-01", 17, "t"⟩

/-- A record with a sentinel title but real content. -/
def rTS : ArticleRecord :=
  ⟨"TechCrunch", "technology", "u", "Title not found", "A", "",
   "real content", "2025-01-01", 12, "t"⟩

/-- The content container of the specification's scenario: three `<p>`
tags "A.", "B.", "C.". -/
def contentABC : ContentNode := ⟨["A.", "B.", "C."], "raw text"⟩

/-- An article page whose source-specific content selector matches
`contentABC` and on which nothing else matches. -/
def pageABC : ArticlePage :=
  ⟨none, none, some contentABC, none, none, none, none, none⟩

/-!  The claims. -/

/-- Claim C2, counterexample: when no date selector of either tier
matches, the `date` field is not a fixed sentinel — it is the current date
taken from the environment clock, so two extractions of the same page at
different times disagree, while `title` and `author` do receive fixed
sentinels. -/
theorem C2_counterexample :
    (scrape_article srcEx "u" pageEmpty "2025-01-01" "t").date = "2025-01-01"
    ∧ (scrape_article srcEx "u" pageEmpty "2025-06-30" "t").date = "2025-06-30"
    ∧ (scrape_article srcEx "u" pageEmpty "2025-01-01" "t").date
        ≠ (scrape_article srcEx "u" pageEmpty "2025-06-30" "t").date
    ∧ (scrape_article srcEx "u" pageEmpty "2025-01-01" "t").title = "Title not found"
    ∧ (scrape_article srcEx "u" pageEmpty "2025-01-01" "t").author = "Author not found" := by
  refine ⟨rfl, rfl, ?_, rfl, rfl⟩
  decide

/-- Claim C2 as amended: when neither the source-specific selector nor the
generic fallback tier matches, `title` and `author` receive the fixed
sentinels "Title not found" and "Author not found", while `date` falls
back to the current date string read from the environment clock rather
than a sentinel. -/
theorem C2_amended (src : Source) (url : String) (cbs cfb : Option ContentNode)
    (meta : Option String) (nd ni : String) :
    (scrape_article src url ⟨none, none, cbs, cfb, none, none, none, meta⟩ nd ni).title
        = "Title not found"
    ∧ (scrape_article src url ⟨none, none, cbs, cfb, none, none, none, meta⟩ nd ni).author
        = "Author not found"
    ∧ (scrape_article src url ⟨none, none, cbs, cfb, none, none, none, meta⟩ nd ni).date
        = nd :=
  ⟨rfl, rfl, rfl⟩

/-- Claim C3: in every variant's `scrape_article` the `content_length`
field equals the character length of the `content` field, including when
the content is the sentinel "Content not found" (whose length is 17). -/
theorem C3_content_length_invariant :
    (∀ (src : Source) (url : String) (page : ArticlePage) (nd ni : String),
        (scrape_article src url page nd ni).content_length
          = (scrape_article src url page nd ni).content.length)
    ∧ (scrape_article srcEx "u" pageEmpty "d" "t").content = "Content not found"
    ∧ (scrape_article srcEx "u" pageEmpty "d" "t").content_length = 17 := by
  refine ⟨fun src url page nd ni => rfl, rfl, ?_⟩
  decide

/-- Claim C7: once a content container is located, the content is the
space-joined concatenation of the stripped texts of its paragraph
children, falling back to the container's stripped raw text when that
concatenation is empty; the sentinel "Content not found" appears only when
no container is found; and the three-paragraph scenario "A.", "B.", "C."
yields content "A. B. C." of length 8. -/
theorem C7_content_assembly :
    (∀ (src : Source) (url : String) (page : ArticlePage) (nd ni : String) (c : ContentNode),
        page.contentBySelector.orElse (fun _ => page.contentFallback) = some c →
        (scrape_article src url page nd ni).content =
          (if joinSpace (c.paragraphs.map strip) = "" then strip c.rawText
           else joinSpace (c.paragraphs.map strip)))
    ∧ (∀ (src : Source) (url : String) (page : ArticlePage) (nd ni : String),
        page.contentBySelector.orElse (fun _ => page.contentFallback) = none →
        (scrape_article src url page nd ni).content = "Content not found")
    ∧ (scrape_article srcEx "u" pageABC "d" "t").content = "A. B. C."
    ∧ (scrape_article srcEx "u" pageABC "d" "t").content_length = 8 := by
  refine ⟨?_, ?_, by decide, by decide⟩
  · intro src url page nd ni c h
    simp only [scrape_article, h]
  · intro src url page nd ni h
    simp only [scrape_article, h]

/-- Witness for C7: the general paragraph-assembly conjunct applied to the
scenario page. -/
theorem C7_witness :
    (scrape_article srcEx "u" pageABC "d" "t").content =
      (if joinSpace (contentABC.paragraphs.map strip) = "" then strip contentABC.rawText
       else joinSpace (contentABC.paragraphs.map strip)) :=
  C7_content_assembly.1 srcEx "u" pageABC "d" "t" contentABC rfl

/-- Claim C9: when no `meta[name="description"]` element with a non-empty
`content` attribute is present, the `description` field is the empty
string; in general the description is either empty or the attribute's
value verbatim, so this field never receives a not-found sentinel of its
own. -/
theorem C9_description_default :
    (∀ (src : Source) (url : String) (page : ArticlePage) (nd ni : String),
        page.metaDescContent = none ∨ page.metaDescContent = some "" →
        (scrape_article src url page nd ni).description = "")
    ∧ (∀ (src : Source) (url : String) (page : ArticlePage) (nd ni : String),
        (scrape_article src url page nd ni).description = ""
          ∨ page.metaDescContent = some (scrape_article src url page nd ni).description) := by
  constructor
  · intro src url page nd ni h
    rcases h with h | h
    · simp only [scrape_article, h]
    · simp only [scrape_article, h]
      rfl
  · intro src url page nd ni
    cases hm : page.metaDescContent with
    | none => left; simp only [scrape_article, hm]
    | some c =>
      by_cases hc : c = ""
      · left; simp only [scrape_article, hm, hc]; rfl
      · right; simp only [scrape_article, hm]; rw [if_neg hc]

/-- Witness for C9: a page with no description meta element yields an
empty description. -/
theorem C9_witness :
    (scrape_article srcEx "u" pageEmpty "d" "t").description = "" :=
  C9_description_default.1 srcEx "u" pageEmpty "d" "t" (Or.inl rfl)

/-- Claim C1, counterexample: not every variant's run loop requires
non-sentinel title and content.  The scrape-articles.py loop
(`if article_data:`) counts a record bearing both sentinels as a success,
ending the retry loop with it (so it is appended to the accumulator), and
the us-scraper.py loop (`title != ""`) counts a record whose title is the
sentinel "Title not found" as a success. -/
theorem C1_counterexample :
    article_retry_generic [some rSent] = (some rSent, [])
    ∧ rSent.title = "Title not found"
    ∧ rSent.content = "Content not found"
    ∧ article_retry_us [some rTS] = (some rTS, [])
    ∧ rTS.title = "Title not found"
    ∧ rTS.content ≠ "Content not found" := by
  refine ⟨rfl, rfl, rfl, rfl, rfl, ?_⟩
  decide

/-- Claim C1 as amended: the asia and euro run loops count a returned
record as a successful scrape only if both its title and its content are
non-sentinel; the us run loop only requires a non-empty title (a sentinel
title still counts) and non-sentinel content; and the generic
scrape-articles loop counts every returned record as a success. -/
theorem C1_amended :
    (∀ (outs : List (Option ArticleRecord)) (r : ArticleRecord),
        (article_retry_asia outs).1 = some r →
        r.title ≠ "Title not found" ∧ r.content ≠ "Content not found")
    ∧ (∀ (outs : List (Option ArticleRecord)) (r : ArticleRecord),
        (article_retry_us outs).1 = some r →
        r.title ≠ "" ∧ r.content ≠ "Content not found")
    ∧ (∀ (outs : List (Option ArticleRecord)) (r : ArticleRecord),
        (article_retry_generic outs).1 = some r → some r ∈ outs) := by
  refine ⟨?_, ?_, ?_⟩
  · intro outs r h
    obtain ⟨hs, _⟩ := retryGo_fst 2 1 asiaSuccess outs 0 r h
    simp only [asiaSuccess, Bool.and_eq_true, bne_iff_ne] at hs
    exact hs
  · intro outs r h
    obtain ⟨hs, _⟩ := retryGo_fst 2 1 usSuccess outs 0 r h
    simp only [usSuccess, Bool.and_eq_true, bne_iff_ne] at hs
    exact hs
  · intro outs r h
    exact (retryGo_fst 2 1 genericSuccess outs 0 r h).2

/-- Witness for C1: the asia-variant success check applied to a concrete
one-attempt run returning a well-formed record. -/
theorem C1_amended_witness :
    rOk.title ≠ "Title not found" ∧ rOk.content ≠ "Content not found" :=
  C1_amended.1 [some rOk] rOk rfl

/-- Claim C6: each failed attempt at 0-based index `k` is followed by a
backoff sleep of `3 + 2k` seconds in the source-level loop and `2 + k`
seconds in the article-level loops, no sleep follows the final attempt,
and the fail-fail-succeed scenario with three attempts returns the
success result after exactly the two sleeps `[3, 5]` (source level) resp.
`[2, 3]` (article level). -/
theorem C6_retry_backoff :
    (∀ outs : List (List String),
        (link_retry outs).2 =
          (List.range (min (failCount (fun l : List String => !l.isEmpty) (outs.map some))
              (outs.length - 1))).map (fun k => 3 + 2 * k))
    ∧ (∀ outs : List (Option ArticleRecord),
        (article_retry_asia outs).2 =
          (List.range (min (failCount asiaSuccess outs) (outs.length - 1))).map
            (fun k => 2 + k))
    ∧ (∀ outs : List (Option ArticleRecord),
        (article_retry_us outs).2 =
          (List.range (min (failCount usSuccess outs) (outs.length - 1))).map
            (fun k => 2 + k))
    ∧ (∀ outs : List (Option ArticleRecord),
        (article_retry_generic outs).2 =
          (List.range (min (failCount genericSuccess outs) (outs.length - 1))).map
            (fun k => 2 + k))
    ∧ link_retry [[], [], ["x"]] = (some ["x"], [3, 5])
    ∧ article_retry_asia [none, none, some rOk] = (some rOk, [2, 3]) := by
  refine ⟨?_, ?_, ?_, ?_, by decide, by decide⟩
  · intro outs
    unfold link_retry
    rw [retryGo_sleeps]
    simp [List.length_map]
  · intro outs
    unfold article_retry_asia
    rw [retryGo_sleeps]
    simp
  · intro outs
    unfold article_retry_us
    rw [retryGo_sleeps]
    simp
  · intro outs
    unfold article_retry_generic
    rw [retryGo_sleeps]
    simp

/-- Claim C4, counterexample: in the scrape-articles.py variant a
discovered URL without a scheme is not joined to the homepage — it passes
through unchanged and the returned sequence contains a non-absolute URL
(the us/asia/euro variants do join it). -/
theorem C4_counterexample :
    ScrapeArticles.get_article_links "https://example.com/home"
        [⟨some "news/a.html", none, none⟩] = ["news/a.html"]
    ∧ pyStartsWith "news/a.html" "http" = false
    ∧ Regional.get_article_links "https://example.com/home"
        [⟨some "news/a.html", none, none⟩] = ["https://example.com/news/a.html"] := by
  refine ⟨by decide, by decide, by decide⟩

/-- Claim C4 as amended: every variant's `get_article_links` returns at
most 15 URLs with no duplicates; in the us/asia/euro variants every
returned URL is additionally absolute (it begins with `http`): URLs
beginning with `/` are prefixed with the homepage's scheme+host, URLs
without a scheme are joined to the homepage, and already-absolute URLs
pass through unchanged.  In the scrape-articles.py variant only URLs
beginning with `/` are normalized, so scheme-less URLs pass through still
relative. -/
theorem C4_amended :
    (∀ (srcUrl : String) (cs : List Container),
        (ScrapeArticles.get_article_links srcUrl cs).length ≤ 15
        ∧ (ScrapeArticles.get_article_links srcUrl cs).Nodup)
    ∧ (∀ (srcUrl : String) (cs : List Container),
        (Regional.get_article_links srcUrl cs).length ≤ 15
        ∧ (Regional.get_article_links srcUrl cs).Nodup
        ∧ ∀ l ∈ Regional.get_article_links srcUrl cs,
            pyStartsWith l "http" = true) := by
  constructor
  · intro u cs
    unfold ScrapeArticles.get_article_links
    cases h : List.foldlM (ScrapeArticles.collectLink u) [] (cs.take 15) with
    | none => simp
    | some res =>
      simp only [Option.getD_some]
      have h1 := foldlM_option_inv (ScrapeArticles.collectLink u) List.Nodup
        (scrapeArticles_collectLink_nodup u) (cs.take 15) [] res h List.nodup_nil
      have h2 := foldlM_option_growth (ScrapeArticles.collectLink u) List.length
        (scrapeArticles_collectLink_growth u) (cs.take 15) [] res h
      have h3 : (cs.take 15).length ≤ 15 := cs.length_take_le 15
      simp only [List.length_nil] at h2
      exact ⟨by omega, h1⟩
  · intro u cs
    unfold Regional.get_article_links
    cases h : List.foldlM (Regional.collectLink u) [] (cs.take 15) with
    | none => simp
    | some res =>
      simp only [Option.getD_some]
      have h1 := foldlM_option_inv (Regional.collectLink u)
        (fun b => b.Nodup ∧ ∀ x ∈ b, pyStartsWith x "http" = true)
        (regional_collectLink_inv u) (cs.take 15) [] res h
        ⟨List.nodup_nil, by intro x hx; simp at hx⟩
      have h2 := foldlM_option_growth (Regional.collectLink u) List.length
        (regional_collectLink_growth u) (cs.take 15) [] res h
      have h3 : (cs.take 15).length ≤ 15 := cs.length_take_le 15
      simp only [List.length_nil] at h2
      exact ⟨by omega, h1.1, h1.2⟩

/-- Claim C5, counterexample: the scrape-articles.py `save_to_json` does
not create a missing parent directory — on a filesystem where `out` does
not exist, saving to `out/articles.json` leaves the filesystem unchanged
(no directory created, no snapshot written), while the asia/euro variant
creates the directory and writes. -/
theorem C5_counterexample :
    ScrapeArticles.save_to_json ⟨[], []⟩ "out/articles.json" [] = ⟨[], []⟩
    ∧ dirname "out/articles.json" = "out"
    ∧ AsiaScraper.save_to_json ⟨[], []⟩ "out/articles.json" [] =
        ⟨["out"], [("out/articles.json", [])]⟩ := by
  refine ⟨by decide, by decide, by decide⟩

/-- Claim C5 as amended: in the scrape-articles, asia and euro variants
the full current accumulator is serialized after each source and once more
at the end, overwriting the previous snapshot; the asia/euro `save_to_json`
creates the missing parent directory before writing, while the
scrape-articles variant performs no directory creation — its write
succeeds only when the parent directory already exists (or the path has
none), and otherwise the failure is logged and the snapshot skipped.  (The
US variant persists individual per-article files, not accumulator
snapshots.) -/
theorem C5_amended :
    (∀ (out : String) (fs : FS) (ss : List (List ArticleRecord)) (acc : List ArticleRecord),
        ss ≠ [] →
        getFile ((runGo AsiaScraper.save_to_json out ss fs acc).1).files out
          = some (acc ++ ss.flatten))
    ∧ (∀ (out : String) (fs : FS) (ss : List (List ArticleRecord)),
        getFile ((runPersist AsiaScraper.save_to_json out fs ss).1).files out
            = some ss.flatten
        ∧ (dirname out ≠ "" →
            dirname out ∈ ((runPersist AsiaScraper.save_to_json out fs ss).1).dirs))
    ∧ (∀ (out : String) (fs : FS) (arts : List ArticleRecord),
        dirname out = "" ∨ dirname out ∈ fs.dirs →
        getFile (ScrapeArticles.save_to_json fs out arts).files out = some arts) := by
  refine ⟨?_, ?_, fun out fs => generic_save_getFile fs out⟩
  · intro out fs ss acc h
    exact asia_runGo_file out ss fs acc h
  · intro out fs ss
    unfold runPersist
    dsimp only
    constructor
    · rw [show (runGo AsiaScraper.save_to_json out ss fs []).2 = ss.flatten from
        by rw [runGo_snd]; simp]
      exact asia_save_getFile _ _ _
    · intro h
      exact asia_save_dir _ _ _ h

/-- Witness for C5: a one-source run on an empty filesystem leaves the
snapshot of that source's records in the output file. -/
theorem C5_amended_witness :
    getFile ((runGo AsiaScraper.save_to_json "data/articles.json"
        [[rOk]] ⟨[], []⟩ []).1).files "data/articles.json"
      = some (([] : List ArticleRecord) ++ ([[rOk]] : List (List ArticleRecord)).flatten) :=
  C5_amended.1 "data/articles.json" ⟨[], []⟩ [[rOk]] [] (by decide)

/-- Claim C8: on an empty article collection the report has
`total_articles = 0` and `average_content_length = 0` (the division is
guarded by the emptiness check and never executed), and a run with no
sources still persists the empty collection. -/
theorem C8_empty_run :
    (∀ sources : List Source,
        generate_report sources [] = ⟨0, [], ⟨0, 0, 0⟩, ⟨0, 0, 0⟩, 0⟩)
    ∧ (∀ (out : String) (fs : FS),
        getFile ((runPersist AsiaScraper.save_to_json out fs []).1).files out = some [])
    ∧ (∀ (out : String) (fs : FS),
        dirname out = "" ∨ dirname out ∈ fs.dirs →
        getFile ((runPersist ScrapeArticles.save_to_json out fs []).1).files out
          = some []) := by
  refine ⟨fun sources => rfl, ?_, ?_⟩
  · intro out fs
    exact asia_save_getFile _ _ _
  · intro out fs h
    exact generic_save_getFile _ _ _ h

/-- Witness for C8: a zero-source run of the scrape-articles variant with
a directory-less output path persists the empty collection. -/
theorem C8_witness :
    getFile ((runPersist ScrapeArticles.save_to_json "articles.json"
        ⟨[], []⟩ []).1).files "articles.json" = some [] :=
  C8_empty_run.2.2 "articles.json" ⟨[], []⟩ (Or.inl (by decide))

/-- Claim C10: every theme `cluster_articles_by_theme` returns has a
nonempty article list (themes emptied by the id-range filter are omitted),
and every article in a returned theme is one of the loaded input articles
— out-of-range ids are silently dropped, never indexed. -/
theorem C10_cluster_ids {α : Type} (md : List α) (ts : List ThemeIn)
    (th : ThemeOut α) (h : th ∈ cluster_articles_by_theme md ts) :
    th.articles ≠ [] ∧ ∀ a ∈ th.articles, a ∈ md := by
  unfold cluster_articles_by_theme at h
  obtain ⟨hmem, hne⟩ := List.mem_filter.mp h
  constructor
  · intro he
    rw [he] at hne
    simp at hne
  · obtain ⟨t, _ht, rfl⟩ := List.mem_map.mp hmem
    intro a ha
    simp only at ha
    unfold themeArticles at ha
    obtain ⟨i, _hi, hsome⟩ := List.mem_filterMap.mp ha
    by_cases hr : 0 ≤ i ∧ i < (md.length : Int)
    · rw [if_pos hr] at hsome
      exact List.get?_mem hsome
    · rw [if_neg hr] at hsome
      simp at hsome

/-- Witness for C10: clustering two articles with a response containing
one in-range id and two out-of-range ids yields one theme holding only the
in-range article. -/
theorem C10_witness :
    (⟨"T", "", [20]⟩ : ThemeOut Nat).articles ≠ []
    ∧ ∀ a ∈ (⟨"T", "", [20]⟩ : ThemeOut Nat).articles, a ∈ [10, 20] :=
  C10_cluster_ids [10, 20] [⟨some "T", none, [1, 5, -2]⟩] ⟨"T", "", [20]⟩ (by decide)

end TechNews
